import Mathlib

/-!
Verification of the youtube-proxy server (three deployment variants:
a yt-dlp based variant and a play-dl based variant in index.js, and an
Innertube (youtubei.js) based variant in a second module).

The JavaScript handlers are embedded shallowly: JS objects become
structures with Option fields for possibly-absent properties, JS string
truthiness (undefined and the empty string are falsy) is modelled
explicitly, and the stable Array.prototype.sort mandated by ES2019 is
modelled by insertion sort, which is stable.
-/

namespace YTProxy

/-! ## JavaScript semantics helpers -/

/-- Model of the JS expression s.includes(pat) on strings:
substring containment. -/
def jsIncludes (s pat : String) : Bool :=
  (s.toList.tails).any (fun t => pat.toList.isPrefixOf t)

/-- Model of the JS idiom x || d for an optional string x: undefined and
the empty string are falsy, so both fall back to the default d. -/
def jsStrOr (v : Option String) (d : String) : String :=
  match v with
  | none => d
  | some s => if s = "" then d else s

/-- Model of JS string truthiness for a possibly-absent string:
undefined and the empty string are falsy. -/
def jsStrTruthy (v : Option String) : Bool :=
  match v with
  | none => false
  | some s => s ≠ ""

/-- Model of the JS expression s.startsWith(pre). -/
def jsStartsWith (s pre : String) : Bool :=
  pre.toList.isPrefixOf s.toList

/-! ## Data model: stream formats (youtubei.js adaptive_formats and
play-dl info.format records, as read by the handlers) -/

/-- One stream-format record, with exactly the properties the handlers
read: mime type, bitrate, direct url, and an optional decipher capability
(a session-player-keyed function producing the final url). The tag field
models JS object identity: it stands for all the properties of the real
format object that the handlers never read, so two formats that agree on
the read properties can still be distinguished. -/
structure StreamFormat where
  tag : Nat
  mime_type : Option String
  bitrate : Option Int
  url : Option String
  decipher : Option (String → String)

/-- The sort key used by the comparator (b.bitrate || 0) - (a.bitrate || 0):
a missing bitrate counts as 0. -/
def jsBitrate (f : StreamFormat) : Int :=
  f.bitrate.getD 0

/-- The filter predicate f.mime_type?.includes("audio"): an absent mime
type is falsy, otherwise substring containment. -/
def isAudioFormat (f : StreamFormat) : Bool :=
  match f.mime_type with
  | none => false
  | some m => jsIncludes m "audio"

/-- Model of formats.sort((a, b) => (b.bitrate || 0) - (a.bitrate || 0)).
ES2019 requires Array.prototype.sort to be stable, so the embedding uses
a stable insertion sort with the induced descending-bitrate order. -/
def sortFormatsDesc (l : List StreamFormat) : List StreamFormat :=
  List.insertionSort (fun a b => jsBitrate b ≤ jsBitrate a) l

/-- The Format Selector as written in both handlers:
formats.filter(f => f.mime_type?.includes("audio"))
       .sort((a, b) => (b.bitrate || 0) - (a.bitrate || 0))[0],
where indexing an empty array gives undefined (none). -/
def selectAudioFormat (l : List StreamFormat) : Option StreamFormat :=
  (sortFormatsDesc (l.filter isAudioFormat)).head?

/-- Written from the words of the specification, for comparison with the
code: the first element in input order whose key is maximal over the
list. -/
def firstMaxBy {α : Type} (key : α → Int) : List α → Option α
  | [] => none
  | a :: l =>
    match firstMaxBy key l with
    | none => some a
    | some b => if key b ≤ key a then some a else some b

/-! ## HTTP handler outcomes -/

/-- The observable outcome of one handler invocation. -/
inductive HandlerResult where
  | okJson (url : String) (videoId : String)
  | badRequest (body : String)
  | serverError (body : String)
  | redirect (location : String)
  | fileSent (path : String)
  | piped (contentType : String)
  deriving DecidableEq

/-- Discriminator for the 400 outcome. -/
def HandlerResult.isBadRequest : HandlerResult → Bool
  | HandlerResult.badRequest _ => true
  | _ => false

/-- The id validation shared verbatim by the handlers:
!videoId || videoId.length !== 11 (the empty string is falsy). -/
def rejectsVideoId (videoId : String) : Bool :=
  videoId == "" || videoId.length != 11

/-- The watch url built by every resolving handler. -/
def watchUrl (videoId : String) : String :=
  "https://www.youtube.com/watch?v=" ++ videoId

/-! ## Innertube variant (second module): session and handlers -/

/-- The Innertube session handle. The player field is the state
youtube.session.player passed to decipher; basicInfoFormats models
youtube.getBasicInfo(videoId) followed by the optional chain
info.streaming_data?.adaptive_formats (none when either property is
absent, error when the platform call throws). Bundling both into one
record captures that deciphering uses the same session instance that
fetched the metadata. -/
structure Session where
  player : String
  basicInfoFormats : String → Except String (Option (List StreamFormat))

/-- The GET /api/audio-url/:videoId handler of the Innertube variant.
The second component counts backend (session) uses. A thrown error is
answered with status 500 and the error message as body. -/
def itAudioUrlHandler (yt : Session) (videoId : String) : HandlerResult × Nat :=
  if rejectsVideoId videoId then (HandlerResult.badRequest "Invalid video ID", 0)
  else
    match yt.basicInfoFormats videoId with
    | Except.error e => (HandlerResult.serverError e, 1)
    | Except.ok fmtsOpt =>
      match fmtsOpt.bind selectAudioFormat with
      | some f =>
        match f.decipher with
        | some d => (HandlerResult.okJson (d yt.player) videoId, 1)
        | none =>
          if jsStrTruthy f.url then (HandlerResult.okJson (f.url.getD "") videoId, 1)
          else (HandlerResult.serverError "No audio format found", 1)
      | none => (HandlerResult.serverError "No audio format found", 1)

/-- The GET /api/stream/:videoId handler of the Innertube variant. Its
catch block prepends the text Stream error to the thrown message. -/
def itStreamHandler (yt : Session) (videoId : String) : HandlerResult × Nat :=
  if rejectsVideoId videoId then (HandlerResult.badRequest "Invalid video ID", 0)
  else
    match yt.basicInfoFormats videoId with
    | Except.error e => (HandlerResult.serverError ("Stream error: " ++ e), 1)
    | Except.ok fmtsOpt =>
      match fmtsOpt.bind selectAudioFormat with
      | none => (HandlerResult.serverError "Stream error: No audio format available", 1)
      | some f =>
        match f.decipher with
        | some d => (HandlerResult.redirect (d yt.player), 1)
        | none =>
          if jsStrTruthy f.url then (HandlerResult.redirect (f.url.getD ""), 1)
          else (HandlerResult.serverError "Stream error: Cannot get audio URL", 1)

/-- The GET /api/download/:videoId handler of the Innertube variant:
an unconditional redirect to the stream endpoint, with no validation
and no backend use of its own. -/
def itDownloadHandler (videoId : String) : HandlerResult × Nat :=
  (HandlerResult.redirect ("/api/stream/" ++ videoId), 0)

/-! ## yt-dlp variant (index.js, first document): handlers -/

/-- The GET /api/audio-url/:videoId handler of the yt-dlp variant. The
parameter models the yt-dlp invocation returning the printed url text,
which the handler trims. -/
def dlpAudioUrlHandler (ytdlp : String → Except String String) (videoId : String) :
    HandlerResult × Nat :=
  if rejectsVideoId videoId then (HandlerResult.badRequest "Invalid video ID", 0)
  else
    match ytdlp (watchUrl videoId) with
    | Except.ok out => (HandlerResult.okJson out.trim videoId, 1)
    | Except.error e => (HandlerResult.serverError e, 1)

/-- The GET /api/stream/:videoId handler of the yt-dlp variant:
resolves the url the same way and redirects to it. -/
def dlpStreamHandler (ytdlp : String → Except String String) (videoId : String) :
    HandlerResult × Nat :=
  if rejectsVideoId videoId then (HandlerResult.badRequest "Invalid video ID", 0)
  else
    match ytdlp (watchUrl videoId) with
    | Except.ok out => (HandlerResult.redirect out.trim, 1)
    | Except.error _ => (HandlerResult.serverError "Stream error", 1)

/-! ## yt-dlp variant: download path and cache store -/

def DOWNLOADS_DIR : String := "downloads"

/-- Path join, modelled as separator concatenation; normalization of
dot segments is irrelevant to the properties proved here, since the
claims concern which characters reach the filesystem layer. -/
def pathJoin (dir file : String) : String :=
  dir ++ "/" ++ file

/-- One filesystem operation performed by the download handler, in
order: an existence check, a directory listing, or a rename. -/
inductive FsOp where
  | existsCheck (path : String)
  | readdir (dir : String)
  | rename (src : String) (dst : String)
  deriving DecidableEq

/-- Outcome of one download-handler invocation: the HTTP result, the
listing of the downloads directory afterwards, the number of yt-dlp
invocations, and the trace of filesystem operations performed. -/
structure DownloadOutcome where
  res : HandlerResult
  fs : List String
  dlCalls : Nat
  ops : List FsOp
  deriving DecidableEq

/-- The body of the GET /api/download/:videoId handler after the id
check (the getOrDownload operation of the specification). The fs0
argument is the listing of the downloads directory; dl models the
yt-dlp invocation, returning the listing after the external downloader
ran. A cache hit serves the canonical file with no downloader call;
otherwise the first listed file whose name starts with videoId is
renamed to the canonical name when it differs, and a missing match is
answered with status 500 and the body Download failed. -/
def getOrDownload (dl : List String → List String) (fs0 : List String) (videoId : String) :
    DownloadOutcome :=
  let outputName := videoId ++ ".mp3"
  let outputPath := pathJoin DOWNLOADS_DIR outputName
  if fs0.contains outputName then
    { res := HandlerResult.fileSent outputPath, fs := fs0, dlCalls := 0,
      ops := [FsOp.existsCheck outputPath] }
  else
    let files := dl fs0
    match files.find? (fun f => jsStartsWith f videoId) with
    | some f =>
      let actualPath := pathJoin DOWNLOADS_DIR f
      if actualPath ≠ outputPath ∧ f ∈ files then
        { res := HandlerResult.fileSent outputPath,
          fs := (files.erase f).insert outputName, dlCalls := 1,
          ops := [FsOp.existsCheck outputPath, FsOp.readdir DOWNLOADS_DIR,
                  FsOp.existsCheck actualPath, FsOp.rename actualPath outputPath] }
      else
        { res := HandlerResult.fileSent outputPath, fs := files, dlCalls := 1,
          ops := [FsOp.existsCheck outputPath, FsOp.readdir DOWNLOADS_DIR] }
    | none =>
      { res := HandlerResult.serverError "Download failed", fs := files, dlCalls := 1,
        ops := [FsOp.existsCheck outputPath, FsOp.readdir DOWNLOADS_DIR] }

/-- The full GET /api/download/:videoId handler of the yt-dlp variant:
id validation, then getOrDownload. -/
def downloadHandler (dl : List String → List String) (fs0 : List String) (videoId : String) :
    DownloadOutcome :=
  if rejectsVideoId videoId then
    { res := HandlerResult.badRequest "Invalid video ID", fs := fs0, dlCalls := 0, ops := [] }
  else getOrDownload dl fs0 videoId

/-- n sequential getOrDownload calls for the same id, threading the
directory listing; returns the per-call results, the final listing and
the total number of downloader invocations. -/
def iterGetOrDownload (dl : List String → List String) (videoId : String) :
    Nat → List String → List HandlerResult × List String × Nat
  | 0, fs => ([], fs, 0)
  | n + 1, fs =>
    let o := getOrDownload dl fs videoId
    let rest := iterGetOrDownload dl videoId n o.fs
    (o.res :: rest.1, rest.2.1, o.dlCalls + rest.2.2)

/-! ## play-dl variant (index.js, second document): handlers -/

/-- The GET /api/audio-url/:videoId handler of the play-dl variant.
The parameter models play.video_info followed by reading info.format.
This variant never touches a decipher capability: it only answers when
the selected format has a truthy direct url. -/
def playAudioUrlHandler (videoInfoFormats : String → Except String (List StreamFormat))
    (videoId : String) : HandlerResult × Nat :=
  if rejectsVideoId videoId then (HandlerResult.badRequest "Invalid video ID", 0)
  else
    match videoInfoFormats (watchUrl videoId) with
    | Except.error e => (HandlerResult.serverError e, 1)
    | Except.ok fmts =>
      match selectAudioFormat fmts with
      | some f =>
        if jsStrTruthy f.url then (HandlerResult.okJson (f.url.getD "") videoId, 1)
        else (HandlerResult.serverError "No audio format found", 1)
      | none => (HandlerResult.serverError "No audio format found", 1)

/-- The GET /api/stream/:videoId handler of the play-dl variant: opens
a live stream and pipes it with an audio content type. -/
def playStreamHandler (streamOf : String → Except String Unit) (videoId : String) :
    HandlerResult × Nat :=
  if rejectsVideoId videoId then (HandlerResult.badRequest "Invalid video ID", 0)
  else
    match streamOf (watchUrl videoId) with
    | Except.ok _ => (HandlerResult.piped "audio/mpeg", 1)
    | Except.error _ => (HandlerResult.serverError "Stream error", 1)

/-- The GET /api/download/:videoId handler of the play-dl variant:
same stream pipe with an attachment disposition. -/
def playDownloadHandler (streamOf : String → Except String Unit) (videoId : String) :
    HandlerResult × Nat :=
  if rejectsVideoId videoId then (HandlerResult.badRequest "Invalid video ID", 0)
  else
    match streamOf (watchUrl videoId) with
    | Except.ok _ => (HandlerResult.piped "audio/mpeg", 1)
    | Except.error _ => (HandlerResult.serverError "Download error", 1)

/-! ## Innertube session initialization

The initYT function of the second module:

  let yt = null;
  async function initYT() {
    if (!yt) { yt = await Innertube.create({...}); }
    return yt;
  }

Sequential semantics first, then an interleaving machine for the
concurrency claim. -/

/-- One sequential initYT call: the create parameter is the outcome of
Innertube.create for this attempt, yt the module variable before the
call; the result pairs what the call returns (or throws) with the
module variable afterwards. The assignment happens only after the
awaited create succeeds, so a failed create leaves yt null. -/
def initYT (create : Except String Nat) (yt : Option Nat) :
    Except String Nat × Option Nat :=
  match yt with
  | some c => (Except.ok c, some c)
  | none =>
    match create with
    | Except.ok c => (Except.ok c, some c)
    | Except.error e => (Except.error e, none)

/-- Progress of one concurrent initYT caller: ready (has not run yet),
awaitingCreate (checked yt, found it null, invoked Innertube.create and
suspended at the await), finished. -/
inductive TaskPc where
  | ready
  | awaitingCreate
  | finished
  deriving DecidableEq

/-- Shared state of the interleaving machine: the module variable yt,
the number of Innertube.create invocations so far, and each caller
progress. -/
structure InitMachine where
  yt : Option Nat
  creates : Nat
  tasks : List TaskPc
  deriving DecidableEq

/-- One scheduler step running caller i to its next suspension point,
following the JavaScript event loop: code runs atomically between
awaits. A ready caller checks yt and either invokes create (suspending
at the await) or finishes immediately; a suspended caller resumes from
the await by assigning yt and finishing. -/
def initStep (s : InitMachine) (i : Nat) : InitMachine :=
  match s.tasks.get? i with
  | some TaskPc.ready =>
    if s.yt = none then
      { s with creates := s.creates + 1, tasks := s.tasks.set i TaskPc.awaitingCreate }
    else
      { s with tasks := s.tasks.set i TaskPc.finished }
  | some TaskPc.awaitingCreate =>
    { s with yt := some i, tasks := s.tasks.set i TaskPc.finished }
  | _ => s

/-- Run a schedule (a list of caller indices) from a state. -/
def runInit (sched : List Nat) (s : InitMachine) : InitMachine :=
  sched.foldl initStep s

/-- Initial state with n first-time callers and no session. -/
def mkInitMachine (n : Nat) : InitMachine :=
  { yt := none, creates := 0, tasks := List.replicate n TaskPc.ready }

/-- The non-concurrent schedule: each caller runs to completion before
the next starts. -/
def seqSchedule (n : Nat) : List Nat :=
  (List.range n).flatMap (fun i => [i, i])

/-! ## Module evaluation model for the Innertube variant

The second module registers routes on an identifier app and listens on
PORT, but neither is ever declared. CommonJS module evaluation runs the
top level statement by statement; reading an undeclared identifier
throws a ReferenceError. -/

/-- A top-level statement, by the names it introduces or reads: decl
introduces a binding (a require result, a hoisted function declaration,
or a let); methodCall reads a target object and further identifiers;
route reads the target and registers a path. -/
inductive TopStmt where
  | decl (name : String)
  | methodCall (target : String) (args : List String)
  | route (target : String) (path : String)
  deriving DecidableEq

/-- Evaluation state: declared names and registered routes. -/
structure ModuleState where
  env : List String
  routes : List String
  deriving DecidableEq

/-- Evaluate one statement: reading a name outside env throws. -/
def evalStmt (st : ModuleState) (s : TopStmt) : Except String ModuleState :=
  match s with
  | TopStmt.decl n => Except.ok { st with env := st.env ++ [n] }
  | TopStmt.methodCall t args =>
    if st.env.contains t then
      match args.find? (fun a => !st.env.contains a) with
      | some a => Except.error ("ReferenceError: " ++ a ++ " is not defined")
      | none => Except.ok st
    else Except.error ("ReferenceError: " ++ t ++ " is not defined")
  | TopStmt.route t p =>
    if st.env.contains t then Except.ok { st with routes := st.routes ++ [p] }
    else Except.error ("ReferenceError: " ++ t ++ " is not defined")

/-- Evaluate a module: the first thrown error aborts evaluation; the
result pairs the error (if any) with the state reached. -/
def evalModule : List TopStmt → ModuleState → Option String × ModuleState
  | [], st => (none, st)
  | s :: rest, st =>
    match evalStmt st s with
    | Except.error e => (some e, st)
    | Except.ok st2 => evalModule rest st2

/-- The top level of the Innertube module, in execution order: the
hoisted initYT function declaration, the four require bindings, the two
middleware registrations (which read app), the let binding of yt, the
five route registrations, and the startup call reading initYT, app and
PORT. -/
def part000Stmts : List TopStmt :=
  [TopStmt.decl "initYT",
   TopStmt.decl "express", TopStmt.decl "cors", TopStmt.decl "ytsr", TopStmt.decl "Innertube",
   TopStmt.methodCall "app" ["cors"],
   TopStmt.methodCall "app" ["express"],
   TopStmt.decl "yt",
   TopStmt.route "app" "/health",
   TopStmt.route "app" "/api/search",
   TopStmt.route "app" "/api/audio-url/:videoId",
   TopStmt.route "app" "/api/stream/:videoId",
   TopStmt.route "app" "/api/download/:videoId",
   TopStmt.methodCall "initYT" ["app", "PORT"]]

/-- The names the module ever declares. -/
def part000DeclNames : List String :=
  part000Stmts.filterMap (fun s =>
    match s with
    | TopStmt.decl n => some n
    | _ => none)

/-! ## Search result mapping (identical in all three variants) -/

/-- The provider author record, as read through v.author?.name and
v.author?.channelID. -/
structure RawAuthor where
  name : Option String
  channelID : Option String
  deriving DecidableEq

/-- The provider thumbnail record, as read through v.bestThumbnail?.url. -/
structure RawThumbnail where
  url : Option String
  deriving DecidableEq

/-- One provider search item, with the properties the handler reads. -/
structure RawItem where
  itemType : String
  id : String
  title : String
  author : Option RawAuthor
  bestThumbnail : Option RawThumbnail
  duration : Option String
  deriving DecidableEq

/-- The response record built by the search handlers. -/
structure SearchResult where
  id : String
  title : String
  artist : String
  thumbnail : String
  duration : Option String
  authorId : String
  deriving DecidableEq

/-- The platform-default thumbnail url derived from the id. -/
def defaultThumbnail (id : String) : String :=
  "https://img.youtube.com/vi/" ++ id ++ "/hqdefault.jpg"

/-- The mapping applied to each video item:
  artist:    v.author?.name || "Unknown"
  thumbnail: v.bestThumbnail?.url || default(id)
  authorId:  v.author?.channelID || ""
with JS string truthiness (absent or empty falls back). -/
def toSearchResult (v : RawItem) : SearchResult :=
  { id := v.id
    title := v.title
    artist := jsStrOr (v.author.bind RawAuthor.name) "Unknown"
    thumbnail := jsStrOr (v.bestThumbnail.bind RawThumbnail.url) (defaultThumbnail v.id)
    duration := v.duration
    authorId := jsStrOr (v.author.bind RawAuthor.channelID) "" }

/-- The whole pipeline: keep the video items, map each. -/
def searchPipeline (items : List RawItem) : List SearchResult :=
  (items.filter (fun i => i.itemType == "video")).map toSearchResult

/-- Written from the words of the claim, for comparison with the code:
artist equals the author name when present, Unknown otherwise, with no
emptiness proviso. -/
def claimArtist (v : RawItem) : String :=
  (v.author.bind RawAuthor.name).getD "Unknown"

/-! ## Concrete fixtures used by counterexamples and witnesses -/

/-- An audio format with neither a decipher capability nor a direct
url. -/
def fmtNoCapability : StreamFormat :=
  { tag := 0, mime_type := some "audio/mp4", bitrate := some 128, url := none, decipher := none }

/-- A session whose metadata offers only fmtNoCapability. -/
def sessionNoCapability : Session :=
  { player := "playerState", basicInfoFormats := fun _ => Except.ok (some [fmtNoCapability]) }

/-- A session whose metadata offers no formats at all. -/
def sessionNoFormats : Session :=
  { player := "playerState", basicInfoFormats := fun _ => Except.ok (some []) }

/-- An audio format carrying a decipher capability and no direct url. -/
def fmtWithDecipher : StreamFormat :=
  { tag := 1, mime_type := some "audio/webm", bitrate := some 160, url := none,
    decipher := some (fun p => "deciphered:" ++ p) }

/-- A session whose metadata offers fmtWithDecipher. -/
def sessionWithDecipher : Session :=
  { player := "playerState", basicInfoFormats := fun _ => Except.ok (some [fmtWithDecipher]) }

/-- A search item whose author is present with an empty name. -/
def emptyNameItem : RawItem :=
  { itemType := "video", id := "abcdefghijk", title := "t",
    author := some { name := some "", channelID := some "chan" },
    bestThumbnail := none, duration := none }

end YTProxy

namespace YTProxy

/-! ## Lemmas about the selector -/

theorem head_insertionSort_eq_firstMaxBy {α : Type} (key : α → Int) (l : List α) :
    (List.insertionSort (fun a b => key b ≤ key a) l).head? = firstMaxBy key l := by
  induction l with
  | nil => rfl
  | cons a l ih =>
    simp only [List.insertionSort]
    cases h : List.insertionSort (fun a b => key b ≤ key a) l with
    | nil =>
      rw [h] at ih
      simp only [List.head?] at ih
      simp [List.orderedInsert, firstMaxBy, ← ih]
    | cons b t =>
      rw [h] at ih
      simp only [List.head?] at ih
      simp only [List.orderedInsert, firstMaxBy, ← ih]
      by_cases hc : key b ≤ key a
      · rw [if_pos hc, if_pos hc]
        rfl
      · rw [if_neg hc, if_neg hc]
        rfl

theorem firstMaxBy_cons_none {α : Type} (key : α → Int) (a : α) {l : List α}
    (hl : firstMaxBy key l = none) : firstMaxBy key (a :: l) = some a := by
  rw [firstMaxBy, hl]

theorem firstMaxBy_cons_some {α : Type} (key : α → Int) (a : α) {l : List α} {b : α}
    (hl : firstMaxBy key l = some b) :
    firstMaxBy key (a :: l) = if key b ≤ key a then some a else some b := by
  rw [firstMaxBy, hl]

theorem firstMaxBy_eq_none_iff {α : Type} (key : α → Int) (l : List α) :
    firstMaxBy key l = none ↔ l = [] := by
  cases l with
  | nil => simp [firstMaxBy]
  | cons a l =>
    simp only [List.cons_ne_nil, iff_false]
    cases hl : firstMaxBy key l with
    | none => rw [firstMaxBy_cons_none key a hl]; simp
    | some c =>
      rw [firstMaxBy_cons_some key a hl]
      by_cases hc : key c ≤ key a <;> simp [hc]

theorem firstMaxBy_mem {α : Type} (key : α → Int) (l : List α) (b : α)
    (h : firstMaxBy key l = some b) : b ∈ l := by
  induction l generalizing b with
  | nil => simp [firstMaxBy] at h
  | cons a l ih =>
    cases hl : firstMaxBy key l with
    | none =>
      rw [firstMaxBy_cons_none key a hl] at h
      simp at h
      simp [h]
    | some c =>
      rw [firstMaxBy_cons_some key a hl] at h
      by_cases hc : key c ≤ key a
      · rw [if_pos hc] at h
        simp at h
        simp [h]
      · rw [if_neg hc] at h
        simp at h
        subst h
        exact List.mem_cons_of_mem a (ih c hl)

theorem firstMaxBy_max {α : Type} (key : α → Int) (l : List α) (b : α)
    (h : firstMaxBy key l = some b) : ∀ a ∈ l, key a ≤ key b := by
  induction l generalizing b with
  | nil => simp [firstMaxBy] at h
  | cons a l ih =>
    intro x hx
    cases hl : firstMaxBy key l with
    | none =>
      rw [firstMaxBy_cons_none key a hl] at h
      simp at h
      subst h
      rcases List.mem_cons.mp hx with rfl | hx
      · exact le_refl _
      · exact absurd ((firstMaxBy_eq_none_iff key l).mp hl) (List.ne_nil_of_mem hx)
    | some c =>
      rw [firstMaxBy_cons_some key a hl] at h
      have hxc : ∀ y ∈ l, key y ≤ key c := ih c hl
      by_cases hc : key c ≤ key a
      · rw [if_pos hc] at h
        simp at h
        subst h
        rcases List.mem_cons.mp hx with rfl | hx
        · exact le_refl _
        · exact le_trans (hxc x hx) hc
      · rw [if_neg hc] at h
        simp at h
        subst h
        rcases List.mem_cons.mp hx with rfl | hx
        · exact le_of_not_le hc
        · exact hxc x hx

/-- C1: the Format Selector returns exactly the first element in input
order among the audio-matching elements whose (missing treated as 0)
bitrate is maximal, and returns no candidate if and only if no element
matches audio. The firstMaxBy formulation quantifies over arbitrary tag
fields, so the returned element is the first maximal element itself, by
identity and not merely by the value of the read properties. -/
theorem c1_format_selector (l : List StreamFormat) :
    selectAudioFormat l = firstMaxBy jsBitrate (l.filter isAudioFormat)
    ∧ (selectAudioFormat l = none ↔ ∀ f ∈ l, ¬ isAudioFormat f)
    ∧ (∀ f, selectAudioFormat l = some f →
        isAudioFormat f ∧ ∀ g ∈ l, isAudioFormat g → jsBitrate g ≤ jsBitrate f) := by
  have hmain : selectAudioFormat l = firstMaxBy jsBitrate (l.filter isAudioFormat) :=
    head_insertionSort_eq_firstMaxBy jsBitrate (l.filter isAudioFormat)
  refine ⟨hmain, ?_, ?_⟩
  · rw [hmain, firstMaxBy_eq_none_iff, List.filter_eq_nil_iff]
  · intro f hf
    rw [hmain] at hf
    have hmem : f ∈ l.filter isAudioFormat := firstMaxBy_mem _ _ _ hf
    have haud : isAudioFormat f := (List.mem_filter.mp hmem).2
    refine ⟨haud, ?_⟩
    intro g hg hga
    exact firstMaxBy_max _ _ _ hf g (List.mem_filter.mpr ⟨hg, hga⟩)

/-! ## Session initialization: equation lemmas for the machine -/

theorem initStep_get_none (s : InitMachine) (i : Nat)
    (hg : s.tasks.get? i = none) : initStep s i = s := by
  unfold initStep
  rw [hg]

theorem initStep_finished (s : InitMachine) (i : Nat)
    (hg : s.tasks.get? i = some TaskPc.finished) : initStep s i = s := by
  unfold initStep
  rw [hg]

theorem initStep_ready_uninit (s : InitMachine) (i : Nat)
    (hg : s.tasks.get? i = some TaskPc.ready) (hyt : s.yt = none) :
    initStep s i =
      { s with creates := s.creates + 1, tasks := s.tasks.set i TaskPc.awaitingCreate } := by
  unfold initStep
  rw [hg]
  simp [hyt]

theorem initStep_ready_init (s : InitMachine) (i : Nat)
    (hg : s.tasks.get? i = some TaskPc.ready) (hyt : s.yt ≠ none) :
    initStep s i = { s with tasks := s.tasks.set i TaskPc.finished } := by
  unfold initStep
  rw [hg]
  simp [hyt]

theorem initStep_awaiting (s : InitMachine) (i : Nat)
    (hg : s.tasks.get? i = some TaskPc.awaitingCreate) :
    initStep s i = { s with yt := some i, tasks := s.tasks.set i TaskPc.finished } := by
  unfold initStep
  rw [hg]

/-- Once the session variable is set and no caller is suspended inside
the create call, no schedule can trigger another create. -/
theorem creates_stable_of_initialized (sched : List Nat) (s : InitMachine)
    (hyt : s.yt ≠ none) (htasks : ∀ pc ∈ s.tasks, pc ≠ TaskPc.awaitingCreate) :
    (runInit sched s).creates = s.creates := by
  induction sched generalizing s with
  | nil => rfl
  | cons i rest ih =>
    have hstep : (initStep s i).creates = s.creates ∧ (initStep s i).yt ≠ none ∧
        ∀ pc ∈ (initStep s i).tasks, pc ≠ TaskPc.awaitingCreate := by
      cases hg : s.tasks.get? i with
      | none => rw [initStep_get_none s i hg]; exact ⟨rfl, hyt, htasks⟩
      | some pc =>
        have hpc : pc ∈ s.tasks := List.get?_mem hg
        cases pc with
        | ready =>
          rw [initStep_ready_init s i hg hyt]
          refine ⟨rfl, hyt, ?_⟩
          intro pc2 h2
          rcases List.mem_or_eq_of_mem_set h2 with h3 | h3
          · exact htasks pc2 h3
          · subst h3; intro hcon; exact TaskPc.noConfusion hcon
        | awaitingCreate => exact absurd rfl (htasks _ hpc)
        | finished => rw [initStep_finished s i hg]; exact ⟨rfl, hyt, htasks⟩
    have hrun : runInit (i :: rest) s = runInit rest (initStep s i) := by
      simp [runInit]
    rw [hrun, ih (initStep s i) hstep.2.1 hstep.2.2, hstep.1]

/-- C2 counterexample: two concurrent first-time callers, both checking
the null session variable before either create call resolves, trigger
two Innertube.create invocations, not one. The schedule runs caller 0
and caller 1 to their awaits, then resumes both. -/
theorem c2_counterexample :
    (runInit [0, 1, 0, 1] (mkInitMachine 2)).creates = 2
    ∧ (runInit [0, 1, 0, 1] (mkInitMachine 2)).creates ≠ 1 := by
  decide

/-- C2 amended: initialization is lazy and at most one create call
happens when first-time callers run sequentially (each to completion
before the next starts); the code is not single-flight under true
concurrency, as the counterexample shows. -/
theorem c2_amended_sequential_once (n : Nat) (h : 1 ≤ n) :
    (runInit (seqSchedule n) (mkInitMachine n)).creates = 1 := by
  obtain ⟨m, rfl⟩ : ∃ m, n = m + 1 := ⟨n - 1, (Nat.succ_pred_eq_of_pos h).symm⟩
  have hsched : seqSchedule (m + 1)
      = [0, 0] ++ ((List.range m).map Nat.succ).flatMap (fun i => [i, i]) := by
    rw [seqSchedule, List.range_succ_eq_map]
    rfl
  have hpref : runInit [0, 0] (mkInitMachine (m + 1))
      = { yt := some 0, creates := 1,
          tasks := TaskPc.finished :: List.replicate m TaskPc.ready } := by
    simp [runInit, mkInitMachine, initStep, List.replicate_succ]
  have hsplit : runInit (seqSchedule (m + 1)) (mkInitMachine (m + 1))
      = runInit (((List.range m).map Nat.succ).flatMap (fun i => [i, i]))
          (runInit [0, 0] (mkInitMachine (m + 1))) := by
    rw [hsched]
    simp [runInit]
  rw [hsplit, hpref]
  rw [creates_stable_of_initialized]
  · intro hcon
    exact Option.noConfusion hcon
  · intro pc hpc
    rcases List.mem_cons.mp hpc with h3 | h3
    · subst h3; intro hcon; exact TaskPc.noConfusion hcon
    · rw [List.eq_of_mem_replicate h3]
      intro hcon; exact TaskPc.noConfusion hcon

theorem c2_amended_sequential_once_witness :
    1 ≤ 3 ∧ (runInit (seqSchedule 3) (mkInitMachine 3)).creates = 1 :=
  ⟨by decide, c2_amended_sequential_once 3 (by decide)⟩

/-- C7: a failed Innertube.create is surfaced to the caller that
triggered it, and the module variable stays null (the assignment sits
after the await, so it never runs on failure), so the next call retries
from scratch and succeeds when create does. -/
theorem c7_init_failure_not_poisoned (e : String) (c : Nat) :
    initYT (Except.error e) none = (Except.error e, none)
    ∧ initYT (Except.ok c) (initYT (Except.error e) none).2 = (Except.ok c, some c) := by
  exact ⟨rfl, rfl⟩

/-- C9: the Innertube module declares neither app nor PORT anywhere, and
evaluating its top level throws a ReferenceError on the very first app
access, before any route is registered, so none of the endpoints of this
variant is ever reachable. -/
theorem c9_innertube_module_unloadable :
    part000DeclNames.contains "app" = false
    ∧ part000DeclNames.contains "PORT" = false
    ∧ (evalModule part000Stmts { env := [], routes := [] }).1
        = some "ReferenceError: app is not defined"
    ∧ (evalModule part000Stmts { env := [], routes := [] }).2.routes = [] := by
  decide

/-- C8 counterexample: a provider record whose author name is present
but empty is mapped to the artist Unknown, not to the (empty) author
name the claim prescribes, because the JS fallback operator treats the
empty string as absent. -/
theorem c8_counterexample :
    emptyNameItem.author.bind RawAuthor.name = some ""
    ∧ (toSearchResult emptyNameItem).artist = "Unknown"
    ∧ (toSearchResult emptyNameItem).artist ≠ claimArtist emptyNameItem := by
  decide

/-- C8 amended: artist equals the author name when present and
non-empty, Unknown when absent or empty; thumbnail equals the best
thumbnail url when present and non-empty, otherwise the deterministic
default derived from the id; authorId equals the channel id when
present and the empty string otherwise (here the empty-string case
coincides with the fallback, so the original wording survives). Id,
title and duration pass through unchanged. -/
theorem c8_amended_mapping (v : RawItem) :
    (toSearchResult v).artist = (match v.author.bind RawAuthor.name with
      | some s => if s = "" then "Unknown" else s
      | none => "Unknown")
    ∧ (toSearchResult v).thumbnail = (match v.bestThumbnail.bind RawThumbnail.url with
      | some s => if s = "" then defaultThumbnail v.id else s
      | none => defaultThumbnail v.id)
    ∧ (toSearchResult v).authorId = (v.author.bind RawAuthor.channelID).getD ""
    ∧ (toSearchResult v).id = v.id
    ∧ (toSearchResult v).title = v.title
    ∧ (toSearchResult v).duration = v.duration := by
  refine ⟨?_, ?_, ?_, rfl, rfl, rfl⟩
  · cases h : v.author.bind RawAuthor.name with
    | none => simp [toSearchResult, jsStrOr, h]
    | some s => by_cases hs : s = "" <;> simp [toSearchResult, jsStrOr, h, hs]
  · cases h : v.bestThumbnail.bind RawThumbnail.url with
    | none => simp [toSearchResult, jsStrOr, h]
    | some s => by_cases hs : s = "" <;> simp [toSearchResult, jsStrOr, h, hs]
  · cases h : v.author.bind RawAuthor.channelID with
    | none => simp [toSearchResult, jsStrOr, h]
    | some s => by_cases hs : s = "" <;> simp [toSearchResult, jsStrOr, h, hs]

/-- C5: when the canonical file for the id is already on disk, every one
of n repeated getOrDownload calls returns the canonical path, the
directory never changes, and the downloader is invoked zero times. -/
theorem c5_cached_idempotent (dl : List String → List String) (fs : List String)
    (videoId : String) (n : Nat) (h : videoId ++ ".mp3" ∈ fs) :
    (iterGetOrDownload dl videoId n fs).1
      = List.replicate n (HandlerResult.fileSent (pathJoin DOWNLOADS_DIR (videoId ++ ".mp3")))
    ∧ (iterGetOrDownload dl videoId n fs).2.1 = fs
    ∧ (iterGetOrDownload dl videoId n fs).2.2 = 0 := by
  have hone : getOrDownload dl fs videoId =
      { res := HandlerResult.fileSent (pathJoin DOWNLOADS_DIR (videoId ++ ".mp3")),
        fs := fs, dlCalls := 0,
        ops := [FsOp.existsCheck (pathJoin DOWNLOADS_DIR (videoId ++ ".mp3"))] } := by
    simp [getOrDownload, h]
  induction n with
  | zero => exact ⟨rfl, rfl, rfl⟩
  | succ n ih =>
    obtain ⟨ih1, ih2, ih3⟩ := ih
    refine ⟨?_, ?_, ?_⟩ <;>
      simp [iterGetOrDownload, hone, ih1, ih2, ih3, List.replicate_succ]

theorem c5_cached_idempotent_witness :
    ("abcdefghijk" ++ ".mp3" ∈ ["abcdefghijk.mp3"])
    ∧ (iterGetOrDownload (fun l => l) "abcdefghijk" 5 ["abcdefghijk.mp3"]).1
        = List.replicate 5
            (HandlerResult.fileSent (pathJoin DOWNLOADS_DIR ("abcdefghijk" ++ ".mp3")))
    ∧ (iterGetOrDownload (fun l => l) "abcdefghijk" 5 ["abcdefghijk.mp3"]).2.1
        = ["abcdefghijk.mp3"]
    ∧ (iterGetOrDownload (fun l => l) "abcdefghijk" 5 ["abcdefghijk.mp3"]).2.2 = 0 := by
  have h := c5_cached_idempotent (fun l => l) ["abcdefghijk.mp3"] "abcdefghijk" 5 (by decide)
  exact ⟨by decide, h.1, h.2.1, h.2.2⟩

/-- C6: on a cache miss the downloader runs once; when no file in the
resulting listing starts with the id, the handler answers Download
failed; when the first such file differs from the canonical name, it is
renamed to the canonical name and the canonical path is served. -/
theorem c6_miss_locate_rename (dl : List String → List String) (fs : List String)
    (videoId : String) (h : videoId ++ ".mp3" ∉ fs) :
    ((dl fs).find? (fun f => jsStartsWith f videoId) = none →
      getOrDownload dl fs videoId =
        { res := HandlerResult.serverError "Download failed", fs := dl fs, dlCalls := 1,
          ops := [FsOp.existsCheck (pathJoin DOWNLOADS_DIR (videoId ++ ".mp3")),
                  FsOp.readdir DOWNLOADS_DIR] })
    ∧ (∀ f, (dl fs).find? (fun g => jsStartsWith g videoId) = some f →
        (getOrDownload dl fs videoId).res
          = HandlerResult.fileSent (pathJoin DOWNLOADS_DIR (videoId ++ ".mp3"))
        ∧ (getOrDownload dl fs videoId).dlCalls = 1
        ∧ (pathJoin DOWNLOADS_DIR f ≠ pathJoin DOWNLOADS_DIR (videoId ++ ".mp3") →
            (getOrDownload dl fs videoId).fs = ((dl fs).erase f).insert (videoId ++ ".mp3")
            ∧ FsOp.rename (pathJoin DOWNLOADS_DIR f)
                (pathJoin DOWNLOADS_DIR (videoId ++ ".mp3"))
                ∈ (getOrDownload dl fs videoId).ops)) := by
  constructor
  · intro hf
    simp [getOrDownload, h, hf]
  · intro f hf
    have hmem : f ∈ dl fs := List.mem_of_find?_eq_some hf
    by_cases hne : pathJoin DOWNLOADS_DIR f = pathJoin DOWNLOADS_DIR (videoId ++ ".mp3")
    · refine ⟨?_, ?_, ?_⟩
      · simp [getOrDownload, h, hf, hne]
      · simp [getOrDownload, h, hf, hne]
      · intro hcon
        exact absurd hne hcon
    · refine ⟨?_, ?_, ?_⟩
      · simp [getOrDownload, h, hf, hne, hmem]
      · simp [getOrDownload, h, hf, hne, hmem]
      · intro _
        constructor
        · simp [getOrDownload, h, hf, hne, hmem]
        · simp [getOrDownload, h, hf, hne, hmem]

theorem c6_miss_locate_rename_witness :
    (getOrDownload (fun _ => ["abcdefghijk.webm"]) [] "abcdefghijk").res
      = HandlerResult.fileSent (pathJoin DOWNLOADS_DIR ("abcdefghijk" ++ ".mp3"))
    ∧ (getOrDownload (fun _ => ["abcdefghijk.webm"]) [] "abcdefghijk").dlCalls = 1
    ∧ FsOp.rename (pathJoin DOWNLOADS_DIR "abcdefghijk.webm")
        (pathJoin DOWNLOADS_DIR ("abcdefghijk" ++ ".mp3"))
        ∈ (getOrDownload (fun _ => ["abcdefghijk.webm"]) [] "abcdefghijk").ops := by
  have h := (c6_miss_locate_rename (fun _ => ["abcdefghijk.webm"]) [] "abcdefghijk"
      (by decide)).2 "abcdefghijk.webm" (by decide)
  exact ⟨h.1, h.2.1, (h.2.2 (by decide)).2⟩

/-- C3 counterexample: the download endpoint of the Innertube variant
performs no validation at all; for the 5-character id short it answers
with a 302 redirect to the stream endpoint, not with the claimed 400. -/
theorem c3_counterexample :
    (itDownloadHandler "short").1 = HandlerResult.redirect "/api/stream/short"
    ∧ (itDownloadHandler "short").1.isBadRequest = false
    ∧ (itDownloadHandler "short").2 = 0 := by
  decide

/-- C3 amended: for every id whose length is not 11, every id-taking
endpoint of the yt-dlp and play-dl variants, and the audio-url and
stream endpoints of the Innertube variant, answer 400 with zero backend
invocations (and, for the download handler, an unchanged directory and
no filesystem operations); the Innertube download endpoint instead
redirects to the stream endpoint, still with zero backend invocations,
and that stream endpoint answers 400 with zero backend invocations. -/
theorem c3_amended_reject_before_backend (videoId : String) (h : videoId.length ≠ 11)
    (ytdlpA ytdlpS : String → Except String String)
    (dl : List String → List String) (fs : List String)
    (vinfo : String → Except String (List StreamFormat))
    (sfn : String → Except String Unit) (yt : Session) :
    dlpAudioUrlHandler ytdlpA videoId = (HandlerResult.badRequest "Invalid video ID", 0)
    ∧ dlpStreamHandler ytdlpS videoId = (HandlerResult.badRequest "Invalid video ID", 0)
    ∧ downloadHandler dl fs videoId =
        { res := HandlerResult.badRequest "Invalid video ID", fs := fs, dlCalls := 0, ops := [] }
    ∧ playAudioUrlHandler vinfo videoId = (HandlerResult.badRequest "Invalid video ID", 0)
    ∧ playStreamHandler sfn videoId = (HandlerResult.badRequest "Invalid video ID", 0)
    ∧ playDownloadHandler sfn videoId = (HandlerResult.badRequest "Invalid video ID", 0)
    ∧ itAudioUrlHandler yt videoId = (HandlerResult.badRequest "Invalid video ID", 0)
    ∧ itStreamHandler yt videoId = (HandlerResult.badRequest "Invalid video ID", 0)
    ∧ itDownloadHandler videoId = (HandlerResult.redirect ("/api/stream/" ++ videoId), 0) := by
  have hr : rejectsVideoId videoId = true := by
    simp [rejectsVideoId, h]
  refine ⟨?_, ?_, ?_, ?_, ?_, ?_, ?_, ?_, rfl⟩ <;>
    simp [dlpAudioUrlHandler, dlpStreamHandler, downloadHandler, playAudioUrlHandler,
      playStreamHandler, playDownloadHandler, itAudioUrlHandler, itStreamHandler, hr]

theorem c3_amended_reject_before_backend_witness :
    dlpAudioUrlHandler (fun _ => Except.ok "u") "short"
      = (HandlerResult.badRequest "Invalid video ID", 0)
    ∧ downloadHandler (fun l => l) ["keep.mp3"] "short" =
        { res := HandlerResult.badRequest "Invalid video ID", fs := ["keep.mp3"],
          dlCalls := 0, ops := [] }
    ∧ itStreamHandler sessionNoFormats "short"
      = (HandlerResult.badRequest "Invalid video ID", 0) := by
  have h := c3_amended_reject_before_backend "short" (by decide)
      (fun _ => Except.ok "u") (fun _ => Except.ok "u") (fun l => l) ["keep.mp3"]
      (fun _ => Except.ok []) (fun _ => Except.ok ()) sessionNoFormats
  exact ⟨h.1, h.2.2.1, h.2.2.2.2.2.2.2.1⟩

/-- C4 counterexample: in the audio-url handler of the Innertube
variant, a selected candidate that has neither a decipher capability
nor a direct url produces the very same failure (500, No audio format
found) as a format list with no audio candidate at all, so the two
failures are not distinct there. -/
theorem c4_counterexample :
    (itAudioUrlHandler sessionNoCapability "abcdefghijk").1
      = HandlerResult.serverError "No audio format found"
    ∧ (itAudioUrlHandler sessionNoFormats "abcdefghijk").1
      = HandlerResult.serverError "No audio format found" := by
  exact ⟨rfl, rfl⟩

/-- C4 amended: in both resolving handlers of the Innertube variant, a
candidate with a decipher capability is resolved by invoking that
capability on the player of the same session that fetched the metadata;
a candidate lacking both capabilities fails, distinctly from the
no-candidate failure in the stream handler (Cannot get audio URL versus
No audio format available), but with the identical No audio format
found failure in the audio-url handler. -/
theorem c4_amended_decipher_and_failures (yt : Session) (videoId : String)
    (fmts : List StreamFormat)
    (hv : rejectsVideoId videoId = false)
    (hinfo : yt.basicInfoFormats videoId = Except.ok (some fmts)) :
    (∀ f d, selectAudioFormat fmts = some f → f.decipher = some d →
      itAudioUrlHandler yt videoId = (HandlerResult.okJson (d yt.player) videoId, 1)
      ∧ itStreamHandler yt videoId = (HandlerResult.redirect (d yt.player), 1))
    ∧ (∀ f, selectAudioFormat fmts = some f → f.decipher = none → jsStrTruthy f.url = false →
      itAudioUrlHandler yt videoId = (HandlerResult.serverError "No audio format found", 1)
      ∧ itStreamHandler yt videoId
          = (HandlerResult.serverError "Stream error: Cannot get audio URL", 1))
    ∧ (selectAudioFormat fmts = none →
      itAudioUrlHandler yt videoId = (HandlerResult.serverError "No audio format found", 1)
      ∧ itStreamHandler yt videoId
          = (HandlerResult.serverError "Stream error: No audio format available", 1))
    ∧ "Stream error: Cannot get audio URL" ≠ "Stream error: No audio format available" := by
  refine ⟨?_, ?_, ?_, by decide⟩
  · intro f d hsel hdec
    constructor <;> simp [itAudioUrlHandler, itStreamHandler, hv, hinfo, hsel, hdec]
  · intro f hsel hdec hurl
    constructor <;> simp [itAudioUrlHandler, itStreamHandler, hv, hinfo, hsel, hdec, hurl]
  · intro hsel
    constructor <;> simp [itAudioUrlHandler, itStreamHandler, hv, hinfo, hsel]

theorem c4_amended_decipher_and_failures_witness :
    itAudioUrlHandler sessionWithDecipher "abcdefghijk"
      = (HandlerResult.okJson ("deciphered:" ++ "playerState") "abcdefghijk", 1)
    ∧ itStreamHandler sessionWithDecipher "abcdefghijk"
      = (HandlerResult.redirect ("deciphered:" ++ "playerState"), 1) :=
  (c4_amended_decipher_and_failures sessionWithDecipher "abcdefghijk" [fmtWithDecipher]
      (by decide) rfl).1 fmtWithDecipher (fun p => "deciphered:" ++ p) rfl rfl

/-- Every run of getOrDownload checks existence of the canonical path
built from the raw id. -/
theorem getOrDownload_checks_canonical (dl : List String → List String)
    (fs : List String) (videoId : String) :
    FsOp.existsCheck (pathJoin DOWNLOADS_DIR (videoId ++ ".mp3"))
      ∈ (getOrDownload dl fs videoId).ops := by
  by_cases hc : videoId ++ ".mp3" ∈ fs
  · simp [getOrDownload, hc]
  · cases hf : (dl fs).find? (fun f => jsStartsWith f videoId) with
    | none => simp [getOrDownload, hc, hf]
    | some f =>
      by_cases hne : pathJoin DOWNLOADS_DIR f = pathJoin DOWNLOADS_DIR (videoId ++ ".mp3")
      · simp [getOrDownload, hc, hf, hne]
      · simp only [getOrDownload, hc, hf, hne]
        split
        · simp
        · split <;> simp

/-- C10: validation is length-only, so every 11-character string is
accepted whatever its characters; the accepted id flows unchanged into
the canonical path joined under the downloads directory and into the
prefix used for matching. In particular the 11-character id
../../../ab, which contains separators and dots, is accepted, and with
a matching file present the handler serves the traversal path. -/
theorem c10_length_only_validation (s : String) (dl : List String → List String)
    (fs : List String) (h : s.length = 11) :
    rejectsVideoId s = false
    ∧ downloadHandler dl fs s = getOrDownload dl fs s
    ∧ FsOp.existsCheck (pathJoin DOWNLOADS_DIR (s ++ ".mp3")) ∈ (getOrDownload dl fs s).ops
    ∧ rejectsVideoId "../../../ab" = false
    ∧ (getOrDownload (fun l => l) ["../../../ab.mp3"] "../../../ab").res
        = HandlerResult.fileSent (DOWNLOADS_DIR ++ "/" ++ "../../../ab" ++ ".mp3") := by
  have hne : s ≠ "" := by
    intro he
    rw [he] at h
    simp at h
  have hrej : rejectsVideoId s = false := by
    simp [rejectsVideoId, hne, h]
  refine ⟨hrej, ?_, getOrDownload_checks_canonical dl fs s, by decide, by decide⟩
  simp [downloadHandler, hrej]

theorem c10_length_only_validation_witness :
    ("../../../ab" : String).length = 11
    ∧ rejectsVideoId "../../../ab" = false
    ∧ downloadHandler (fun l => l) ["../../../ab.mp3"] "../../../ab"
        = getOrDownload (fun l => l) ["../../../ab.mp3"] "../../../ab"
    ∧ FsOp.existsCheck (pathJoin DOWNLOADS_DIR ("../../../ab" ++ ".mp3"))
        ∈ (getOrDownload (fun l => l) ["../../../ab.mp3"] "../../../ab").ops := by
  have h := c10_length_only_validation "../../../ab" (fun l => l) ["../../../ab.mp3"]
      (by decide)
  exact ⟨by decide, h.1, h.2.1, h.2.2.1⟩

end YTProxy
